import Mathlib

/-!
# Verification of the `ews-gis-assets` pipeline

A shallow embedding in Lean 4 of the parts of the `ews-gis-assets`
repository that the claims of the specification concern:

* `src/ews_gis_assets/helpers.py` — the content hasher
  (`calculate_gdf_hash`, built on `pandas.util.hash_pandas_object` with
  `index=True` followed by `.sum()`) and the change gate
  (`is_data_updated`);
* `src/ews_gis_assets/noe.py` — the permitting dataset normalizer
  (`download_noe_geojson`): housekeeping-column drop, fixed-schema column
  selection, the unmapped-column check, integer/float coercion and
  duplicate-key removal;
* `src/ews_gis_assets/austro_control.py` — the obstacle dataset parser
  (`parse_icao`) and the fetch-and-cache operation
  (`get_austro_control_data`).

Machine integers are modelled as `Nat` with explicit reduction modulo
`2 ^ 64` where the Python/numpy code works on `uint64` values; numeric
cell values are modelled as `ℚ` (the decimal semantics of the float pipeline,
idealised over the rationals); nullable cells are `Option`; code that can
raise is modelled with `Except String`.
-/

namespace EwsGisAssets

/-! ## Python string primitives

The Python string operations the pipeline uses (`str.split`,
`str.replace`, `str.strip`, `str.startswith`, `str.endswith`, `int(...)`)
are embedded as structurally recursive functions over the character list
of a `String`, so that every definition evaluates by kernel reduction. -/

/-- Auxiliary for `pySplitChar`: accumulate the current field (reversed)
and cut at each separator. -/
def splitCharAux (sep : Char) : List Char → List Char → List String
  | [], acc => [String.mk acc.reverse]
  | c :: rest, acc =>
      if c = sep then String.mk acc.reverse :: splitCharAux sep rest []
      else splitCharAux sep rest (c :: acc)

/-- Python `s.split(sep)` for a one-character separator (the pipeline only
splits on `"_"`, `" "` and `"."`): `"a_b".split("_") = ["a", "b"]`,
`"".split("_") = [""]`, and consecutive separators produce empty fields. -/
def pySplitChar (sep : Char) (s : String) : List String :=
  splitCharAux sep s.data []

/-- Auxiliary for `pyReplace`: fuel-driven scan (the fuel is the input
length; every step consumes at least one character). -/
def replaceAuxFuel (pat rep : List Char) : Nat → List Char → List Char
  | 0, cs => cs
  | _ + 1, [] => []
  | fuel + 1, c :: rest =>
      if pat ≠ [] ∧ pat.isPrefixOf (c :: rest) then
        rep ++ replaceAuxFuel pat rep fuel ((c :: rest).drop pat.length)
      else c :: replaceAuxFuel pat rep fuel rest

/-- Python `s.replace(pat, rep)`: replace every non-overlapping occurrence
of `pat`, scanning left to right. -/
def pyReplace (s pat rep : String) : String :=
  String.mk (replaceAuxFuel pat.data rep.data s.data.length s.data)

/-- Python `s.strip()`: drop leading and trailing whitespace. -/
def pyStrip (s : String) : String :=
  String.mk (((s.data.dropWhile Char.isWhitespace).reverse.dropWhile
    Char.isWhitespace).reverse)

/-- Python `s.startswith(p)`. -/
def pyStartsWith (s p : String) : Bool :=
  p.data.isPrefixOf s.data

/-- Python `s.endswith(p)`. -/
def pyEndsWith (s p : String) : Bool :=
  p.data.isSuffixOf s.data

/-- The numeric value of a non-empty all-digit character list, `none`
otherwise. -/
def digitsVal (cs : List Char) : Option Nat :=
  if cs = [] then none
  else if cs.all (fun c => c.isDigit) then
    some (cs.foldl (fun n c => 10 * n + (c.toNat - 48)) 0)
  else none

/-- Python `int(s)` on a decimal literal with optional sign (the form the
pipeline feeds it). -/
def pyToInt (s : String) : Option Int :=
  match s.data with
  | '-' :: rest => (digitsVal rest).map (fun n => -(n : Int))
  | '+' :: rest => (digitsVal rest).map (fun n => (n : Int))
  | cs => (digitsVal cs).map (fun n => (n : Int))

/-! ## Content hasher (`helpers.py`)

`calculate_gdf_hash(gdf)` is
`str(pd.util.hash_pandas_object(gdf, index=True).sum())`.

`hash_pandas_object` hashes every column of the frame with `hash_array`,
appends the hash of the index, and combines them position-wise with
`combine_hash_arrays`; `.sum()` adds the resulting per-row `uint64`
values with wrap-around.  We embed the `int64` data path: each 8-byte
value is scrambled by the splitmix64 finaliser used in
`pandas/core/util/hashing.py` (`_hash_ndarray`), and the per-row hashes
are combined with the CPython-tuple-hash scheme of
`combine_hash_arrays`.  A dataset is an index (the row labels, `int64`)
together with its rows of `int64` cell values. -/

/-- Reduce modulo `2 ^ 64`, the wrap-around of numpy `uint64` arithmetic. -/
def m64 (n : Nat) : Nat := n % 2 ^ 64

/-- The `uint64` view of a signed 64-bit cell value (two-complement bits). -/
def toU64 (v : Int) : Nat := (v % (2 ^ 64 : Int)).toNat

/-- The splitmix64 finaliser applied by `pandas.core.util.hashing._hash_ndarray`
to data viewed as `uint64`:
`vals ^= vals >> 30; vals *= 0xBF58476D1CE4E5B9; vals ^= vals >> 27;
 vals *= 0x94D049BB133111EB; vals ^= vals >> 31`. -/
def hash_array (v : Nat) : Nat :=
  let v := m64 v
  let v := Nat.xor v (v >>> 30)
  let v := m64 (v * 0xBF58476D1CE4E5B9)
  let v := Nat.xor v (v >>> 27)
  let v := m64 (v * 0x94D049BB133111EB)
  Nat.xor v (v >>> 31)

/-- The loop of `pandas.core.util.hashing.combine_hash_arrays`, specialised to
one row: `out ^= a; out *= mult; mult += 82520 + 2 * inverse_i` where
`inverse_i = num_items - i` counts down from the number of hashed arrays. -/
def combineGo : List Nat → Nat → Nat → Nat → Nat
  | [], out, _, _ => m64 (out + 97531)
  | a :: rest, out, mult, inv =>
      combineGo rest (m64 (Nat.xor out a * mult)) (m64 (mult + 82520 + inv + inv)) (inv - 1)

/-- Function `combine_hash_arrays`: start from `0x345678` with multiplier `1000003`,
fold in the hash of each array, and add `97531` at the end. -/
def combine_hash_arrays (hs : List Nat) : Nat :=
  combineGo hs 0x345678 1000003 hs.length

/-- The hash of one row of the frame: the scrambled column values in column
order, with the scrambled index label appended last (`hash_pandas_object`
chains the column hashes and then the index hash). -/
def rowHash (label : Nat) (cells : List Int) : Nat :=
  combine_hash_arrays (cells.map (fun v => hash_array (toU64 v)) ++ [hash_array label])

/-- Embedding of `pd.util.hash_pandas_object(gdf, index=True)`: the per-row `uint64`
hash series of a dataset given as row labels plus rows of cell values. -/
def hash_pandas_object (index : List Nat) (rows : List (List Int)) : List Nat :=
  (index.zip rows).map (fun p => rowHash p.1 p.2)

/-- The fingerprint: `hash_pandas_object(gdf, index=True).sum()`, a `uint64`
sum with numpy wrap-around. -/
def gdfFingerprint (index : List Nat) (rows : List (List Int)) : Nat :=
  m64 (hash_pandas_object index rows).sum

/-- Function `calculate_gdf_hash`: the decimal string form of the fingerprint
(`str(...)` in the source). -/
def calculate_gdf_hash (index : List Nat) (rows : List (List Int)) : String :=
  toString (gdfFingerprint index rows)

/-! ## Change gate (`helpers.py`, `is_data_updated`)

The hash file is modelled as `Option String`: `none` when the file does
not exist, `some c` when it exists with content `c`.  The function
returns the boolean result together with the state of the hash file after the
call. -/

/-- Function `is_data_updated(gdf, hash_file)`: compute the new fingerprint; if the
hash file exists and its stripped content equals the fresh fingerprint,
return `false` without touching the file; otherwise write the fresh
fingerprint and return `true`. -/
def is_data_updated (index : List Nat) (rows : List (List Int))
    (hashFile : Option String) : Bool × Option String :=
  match hashFile with
  | some content =>
      if calculate_gdf_hash index rows = pyStrip content then (false, some content)
      else (true, some (calculate_gdf_hash index rows))
  | none => (true, some (calculate_gdf_hash index rows))

/-! ## Permitting dataset normalizer (`noe.py`, `download_noe_geojson`)

The column handling of the normalizer is embedded at the level of column
names; the per-column coercion loops are embedded as functions on single
columns of nullable cells, and the duplicate-key removal as a function
on the list of rows. -/

/-- The fixed declared schema `dtypes` of `download_noe_geojson`:
column name to type tag, in declaration order. -/
def noe_dtypes : List (String × String) :=
  [("Kennzeichen (UVP)", "category"),
   ("Kennzeichen (ER)", "category"),
   ("Rechtsmaterie", "category"),
   ("Betreiber", "category"),
   ("Vorhaben", "category"),
   ("Datum Genehmigungsantrag", "date"),
   ("Datum Entscheidung 1. Instanz (Bescheid)", "date"),
   ("Datum Fertigstellungsmeldung", "date"),
   ("Status", "category"),
   ("Änderung", "category"),
   ("Repowering", "category"),
   ("Name der WKA", "category"),
   ("Leistung der WKA [MW]", "float"),
   ("Gesamtleistung [MW]", "float"),
   ("Gesamthöhe der WKA [m]", "float"),
   ("Type", "category"),
   ("Grundstücks-Nummer", "category"),
   ("Katastralgemeinde", "category"),
   ("Gemeinde", "category"),
   ("Bezirk", "category"),
   ("Hauptregion", "category"),
   ("KG-Nummer", "int"),
   ("Koordinaten Länge [WGS 84]", "float"),
   ("Koordinaten Breite [WGS 84]", "float"),
   ("Zusatzinformation", "category"),
   ("Stand", "category")]

/-- The housekeeping columns dropped up front:
`gdf.drop(columns=["_fulltext", "_title", "_zoomscale"], errors="ignore")`. -/
def housekeepingCols : List String := ["_fulltext", "_title", "_zoomscale"]

/-- The column list the normalizer selects: `[*dtypes.keys(), "geometry"]`. -/
def noeSelection : List String := noe_dtypes.map Prod.fst ++ ["geometry"]

/-- Pandas column selection `gdf[sel]`: succeeds with exactly the selected
columns when every one of them is present, raises `KeyError` otherwise
(columns of `cols` outside `sel` are simply not selected). -/
def selectColumns (cols sel : List String) : Except String (List String) :=
  if ∀ c ∈ sel, c ∈ cols then .ok sel
  else .error "KeyError: columns not in index"

/-- The schema-handling prefix of `download_noe_geojson` on the column list
of the input frame: drop the housekeeping columns; select
`[*dtypes.keys(), "geometry"]`; compute
`unmapped_cols = [col for col in gdf.columns if col not in dtypes]` on the
frame *after* the selection, remove `"geometry"` from it, and raise
`ValueError` when anything remains. -/
def noeSchemaStep (cols : List String) : Except String (List String) :=
  match selectColumns (cols.filter (fun c => decide (c ∉ housekeepingCols))) noeSelection with
  | .error e => .error e
  | .ok cols2 =>
      if ((cols2.filter (fun c => decide (c ∉ noe_dtypes.map Prod.fst))).erase "geometry") = []
      then .ok cols2
      else .error ("Unmapped columns found: " ++
        toString ((cols2.filter (fun c => decide (c ∉ noe_dtypes.map Prod.fst))).erase "geometry"))

/-- The body of the integer-coercion loop for one column,
`s = s.where(s.notnull(), None)`: null cells stay null, others unchanged
(an identity on nullable cells). -/
def whereNotNull (s : List (Option Int)) : List (Option Int) :=
  s.map (fun v => if v.isSome then v else none)

/-- Conversion `s.astype("int")`: numpy `int64` has no missing-value representation,
so converting a column that contains a null raises
(`ValueError: Cannot convert non-finite values (NA or inf) to integer`);
on a null-free column it yields the integer values. -/
def astypeInt (s : List (Option Int)) : Except String (List Int) :=
  if ∀ v ∈ s, v.isSome then .ok (s.filterMap id)
  else .error "ValueError: Cannot convert non-finite values (NA or inf) to integer"

/-- The integer-coercion step of `download_noe_geojson` for one `int`
column: `s = gdf[col]; s = s.where(s.notnull(), None); s.astype("int")`. -/
def intCoerceColumn (s : List (Option Int)) : Except String (List Int) :=
  astypeInt (whereNotNull s)

/-- A digit string to its numeric value; `none` when empty or when any
character is not a decimal digit. -/
def digitsToNat (s : String) : Option Nat :=
  digitsVal s.data

/-- The unsigned part of a decimal literal: integer digits, optional
point and fraction digits. -/
def parseUnsigned (s : String) : Option ℚ :=
  match pySplitChar '.' s with
  | [ip] => (digitsToNat ip).map (fun n => (n : ℚ))
  | [ip, fp] =>
      match digitsToNat ip, digitsToNat fp with
      | some n, some f => some ((n : ℚ) + (f : ℚ) / (10 ^ fp.data.length))
      | _, _ => none
  | _ => none

/-- Embedding of `pd.to_numeric(·, errors="raise")` on one string cell, modelled as a
decimal-literal parser over `ℚ`: optional sign, integer digits, optional
point and fraction digits; `none` models the raised `ValueError`. -/
def to_numeric (s : String) : Option ℚ :=
  match s.data with
  | '-' :: rest => (parseUnsigned (String.mk rest)).map (fun q => -q)
  | '+' :: rest => parseUnsigned (String.mk rest)
  | _ => parseUnsigned s

/-- Rounding half-to-even (the numpy convention) on a rational, to integer. -/
def roundHalfEven (x : ℚ) : ℤ :=
  if x - Rat.floor x < 1 / 2 then Rat.floor x
  else if 1 / 2 < x - Rat.floor x then Rat.floor x + 1
  else if Rat.floor x % 2 = 0 then Rat.floor x else Rat.floor x + 1

/-- Rounding `.round(6)`: round to 6 decimal places (numpy half-to-even). -/
def round6 (x : ℚ) : ℚ := (roundHalfEven (x * 10 ^ 6) : ℚ) / 10 ^ 6

/-- One cell of the float-coercion step: a null cell passes through
`str.replace` and `to_numeric` as a missing value; a non-null cell is
comma-normalized, parsed and rounded; `none` models the raise. -/
def floatCellStep (v : Option String) : Option (Option ℚ) :=
  match v with
  | none => some none
  | some str =>
      match to_numeric (pyReplace str "," ".") with
      | some q => some (some (round6 q))
      | none => none

/-- The float-coercion step of `download_noe_geojson` for one `float`
column: `pd.to_numeric(s.str.replace(",", "."), errors="raise").round(6)`. -/
def floatCoerceColumn (s : List (Option String)) : Except String (List (Option ℚ)) :=
  if ∀ r ∈ s.map floatCellStep, r.isSome then .ok ((s.map floatCellStep).filterMap id)
  else .error "ValueError: Unable to parse string"

/-- One output row of the normalizer, restricted to the identity-key
columns the duplicate check uses (`payload` stands for the remaining
columns of the row). -/
structure NoeRow where
  vorhaben : String
  nameWKA : String
  laenge : ℚ
  breite : ℚ
  payload : String
  deriving DecidableEq, Repr

/-- Embedding of `gdf[key_cols].apply(tuple, axis=1)`: the identity key of a row,
`("Vorhaben", "Name der WKA", "Koordinaten Länge [WGS 84]",
"Koordinaten Breite [WGS 84]")`. -/
def keyOf (r : NoeRow) : String × String × ℚ × ℚ :=
  (r.vorhaben, r.nameWKA, r.laenge, r.breite)

/-- The number of occurrences of the key value `k` in the key series. -/
def keyCount (rows : List NoeRow) (k : String × String × ℚ × ℚ) : Nat :=
  (rows.map keyOf).countP (fun x => decide (x = k))

/-- Embedding of `key[key.duplicated(keep=False)]`: every key occurrence whose value
appears more than once in the key series (this is what the normalizer
prints when duplicates exist). -/
def duplicatedKeys (rows : List NoeRow) : List (String × String × ℚ × ℚ) :=
  (rows.map keyOf).filter (fun k => decide (1 < keyCount rows k))

/-- Embedding of `key.drop_duplicates(keep="first")` followed by `gdf.loc[key.index]`:
keep each row whose key has not been seen before. -/
def dropDupFirst : List NoeRow → List (String × String × ℚ × ℚ) → List NoeRow
  | [], _ => []
  | r :: rest, seen =>
      if keyOf r ∈ seen then dropDupFirst rest seen
      else r :: dropDupFirst rest (keyOf r :: seen)

/-- The duplicate-key handling of `download_noe_geojson`: when the
duplicated-key series is non-empty, print it (returned here as the second
component) and keep only the first occurrence of each key; when it is
empty, the branch is skipped and the frame is untouched. -/
def noeDedupe (rows : List NoeRow) :
    List NoeRow × List (String × String × ℚ × ℚ) :=
  if duplicatedKeys rows = [] then (rows, [])
  else (dropDupFirst rows [], duplicatedKeys rows)

/-! ## Obstacle dataset parser (`austro_control.py`, `parse_icao`)

The XML deserialisation (`xml.etree.ElementTree`) is external; we embed
its result: a list of `VerticalStructure` elements, each carrying the
text of the tags `parse_icao` reads and its nested
`VerticalStructurePart` children.  The four numeric columns coerced with
`errors="coerce"` (`HorizontalAccuracy`, `Elevation`, `VerticalExtent`,
`VerticalAccuracy`) and the derived `TerrainElevation` are carried as
their raw strings / omitted from the output record, since no claim
concerns their values. -/

/-- One `aixm:VerticalStructurePart` child element, with the texts
`parse_icao` reads from it.  `gmlId` is the `gml:id` attribute, `pos`
the raw `gml:pos` text. -/
structure VerticalStructurePart where
  gmlId : String
  pos : String
  ptype : String
  deriving DecidableEq, Repr

/-- One `aixm:VerticalStructure` element: its `type`, stripped
`constructionStatus`, `name`, the nested `Note/note` text, and its part
children. -/
structure VerticalStructure where
  stype : String
  status : String
  name : String
  note : String
  parts : List VerticalStructurePart
  deriving DecidableEq, Repr

/-- Function `clean_name`: remove a known wind-farm name prefix and strip
whitespace. -/
def clean_name (s : String) : String :=
  if pyStartsWith s "Windpark " then pyStrip (pyReplace s "Windpark " "")
  else if pyStartsWith s "WP " then pyStrip (pyReplace s "WP " "")
  else if pyStartsWith s "WKA " then pyStrip (pyReplace s "WKA " "")
  else if pyStartsWith s "Windturbine " then pyStrip (pyReplace s "Windturbine " "")
  else if pyStartsWith s "Windkraftanlage" then pyStrip (pyReplace s "Windkraftanlage " "")
  else pyStrip s

/-- The structure types kept by the parser. -/
def valid_types : List String := ["WINDMILL_FARMS", "WINDMILL"]

/-- The record dict appended to `wtgs` for one part of one kept
structure (restricted to the fields the claims concern; `geometry` is
the raw position text split on a single space,
`wtg.find(".//gml:pos").text.split(" ")`). -/
structure WtgRaw where
  WindFarm : String
  WPID : String
  Name : String
  geometry : List String
  Status : String
  wtype : String
  deriving DecidableEq, Repr

/-- Build the raw record for one part: farm identity and status from the
enclosing structure, name/geometry/type from the part itself. -/
def mkWtg (s : VerticalStructure) (p : VerticalStructurePart) : WtgRaw :=
  { WindFarm := clean_name s.note
    WPID := s.name
    Name := p.gmlId
    geometry := pySplitChar ' ' p.pos
    Status := pyStrip s.status
    wtype := p.ptype }

/-- The collection loop of `parse_icao`: walk every `VerticalStructure`,
skip those whose type is not in `valid_types`, and emit one raw record
per nested part. -/
def collectWtgs (structs : List VerticalStructure) : List WtgRaw :=
  structs.foldr
    (fun s acc =>
      if s.stype ∈ valid_types then s.parts.map (mkWtg s) ++ acc else acc)
    []

/-- Derivation `df["Name"].str.split("_", expand=True).iloc[:, 1].astype("int")` for
one name: the second `"_"`-separated token parsed as an integer; `none`
models the raise when the token is missing or not an integer literal. -/
def deriveUID (name : String) : Option Int :=
  match (pySplitChar '_' name).get? 1 with
  | some t => pyToInt t
  | none => none

/-- The status normalization table `rd`; unmapped codes pass through
unchanged (`rd.get(_, _)`). -/
def statusMap (s : String) : String :=
  if s = "COMPLETED" then "Operating"
  else if s = "IN_CONSTRUCTION" then "UnderConstruction"
  else if s = "MODIFICATION_APPRVD" then "ModificationApproved"
  else if s = "DEMOLITION_PLANNED" then "DemolitionPlanned"
  else if s = "CONSTRUCTION_PLANNED" then "Plan"
  else if s = "CONSTRUCTION_APPRVD" then "Approved"
  else if s = "OTHER:IN_CONSTRUCTION" then "UnderConstruction"
  else if s = "OTHER:MODIFICATION_APPRVD" then "ModificationApproved"
  else if s = "OTHER:DEMOLITION_PLANNED" then "DemolitionPlanned"
  else if s = "OTHER:CONSTRUCTION_PLANNED" then "Plan"
  else if s = "OTHER:MODIFICATION_PLANNED" then "ModificationPlanned"
  else if s = "OTHER:CONSTRUCTION_APPRVD" then "Approved"
  else s

/-- One row of the GeoDataFrame `parse_icao` returns, restricted to the
claim-relevant columns.  `geometry` is the point built by
`gpd.points_from_xy` whose coordinates are carried as their source
tokens: `x` from the second raw position token, `y` from the first. -/
structure ObstacleRecord where
  Name : String
  WPID : String
  WindFarm : String
  wtype : String
  Status : String
  geometry : String × String
  Longitude : String
  Latitude : String
  UID : Int
  deriving DecidableEq, Repr

/-- The dataset `parse_icao` returns: the records plus the coordinate
reference system set by `df.crs = pyproj...CRS.from_epsg(4326)`,
carried as the EPSG code. -/
structure IcaoDataset where
  records : List ObstacleRecord
  crsEpsg : Nat
  deriving DecidableEq, Repr

/-- The per-record tail of `parse_icao` once its UID is derived:
`points_from_xy(x=geometry[1], y=geometry[0])`, then
`Longitude = point.x`, `Latitude = point.y`, and the status table.
`none` models the `IndexError` of `operator.itemgetter(1)` when the raw
position has fewer than two tokens. -/
def finishWtg (w : WtgRaw) (uid : Int) : Option ObstacleRecord :=
  match w.geometry.get? 0, w.geometry.get? 1 with
  | some t0, some t1 =>
      some { Name := w.Name
             WPID := w.WPID
             WindFarm := w.WindFarm
             wtype := w.wtype
             Status := statusMap w.Status
             geometry := (t1, t0)
             Longitude := t1
             Latitude := t0
             UID := uid }
  | _, _ => none

/-- Function `parse_icao`, from the deserialised structure list to the dataset.
Failure order follows the source: `pd.DataFrame.from_records([])` yields
a frame with no columns at all, so on an empty collection the very next
line, `df["Name"]`, raises `KeyError`; then the UID derivation
(`.astype("int")`) raises on any non-derivable name; then the geometry
split (`operator.itemgetter(1)`) raises on a short position string; and
finally `assert df.UID.duplicated().sum() == 0` fails on any duplicated
UID. -/
def parse_icao (structs : List VerticalStructure) : Except String IcaoDataset :=
  if collectWtgs structs = [] then .error "KeyError: Name"
  else if ∀ w ∈ collectWtgs structs, (deriveUID w.Name).isSome then
    if ∀ w ∈ collectWtgs structs, 2 ≤ w.geometry.length then
      if (((collectWtgs structs).filterMap
            (fun w => (deriveUID w.Name).bind (finishWtg w))).map ObstacleRecord.UID).Nodup
      then .ok { records := (collectWtgs structs).filterMap
                   (fun w => (deriveUID w.Name).bind (finishWtg w)),
                 crsEpsg := 4326 }
      else .error "AssertionError: duplicated UID"
    else .error "IndexError: list index out of range"
  else .error "ValueError: invalid literal for int"

/-! ## Obstacle fetch-and-cache (`austro_control.py`, `get_austro_control_data`)

We embed the branch in which no usable cache file exists (the
fetch-and-cache invocation of the claim), with the download outcome as input: the
network fetch either raises, or yields bytes that are not a readable zip
archive, or yields an archive with its member list.  Every exception in
the `try` block is caught and printed, leaving `ac_source = None`, and
the function then calls `parse_icao(ac_source)` — `ET.fromstring(None)`
raises `TypeError`.  The XML deserialiser is passed in as `xmlOf`. -/

/-- The outcome of `requests.get(url)` + `zipfile.ZipFile` on the body. -/
inductive Download where
  | failure : Download
  | malformedZip : Download
  | archive : List (String × String) → Download
  deriving DecidableEq, Repr

/-- The `try` block of `get_austro_control_data`: returns
`(ac_source, cache file written)`.  Only when the archive holds exactly
one `.xml` member is it read and persisted (`filename.write_bytes`);
a raised and caught exception leaves both `None`. -/
def fetchObstacleArchive (dl : Download) : Option String × Option String :=
  match dl with
  | .failure => (none, none)
  | .malformedZip => (none, none)
  | .archive entries =>
      match entries.filter (fun e => pyEndsWith e.1 ".xml") with
      | [e] => (some e.2, some e.2)
      | _ => (none, none)

/-- Function `get_austro_control_data` from the download outcome onwards: fetch
and cache, then `parse_icao(ac_source)`.  Returns the overall result and
the content of the cache file (`none` when nothing was written). -/
def get_austro_control_data (dl : Download)
    (xmlOf : String → List VerticalStructure) :
    Except String IcaoDataset × Option String :=
  match fetchObstacleArchive dl with
  | (none, written) =>
      (.error "TypeError: a bytes-like object is required, not NoneType", written)
  | (some src, written) => (parse_icao (xmlOf src), written)

/-! ## Theorems -/

/-- Claim C1: the claim says an attribute column outside the declared fixed
schema makes the normalizer raise a fatal schema-mismatch error naming
every unrecognized column.  The code does the opposite: the column
selection `gdf[[*dtypes.keys(), "geometry"]]` runs *before*
`unmapped_cols` is computed, so `unmapped_cols` is computed on a frame
that already holds exactly the declared columns plus geometry, and the
`raise ValueError("Unmapped columns found: ...")` is unreachable.  For
every input column list the schema step either succeeds with exactly the
declared selection (extra columns silently dropped) or fails with the
`KeyError` of a missing declared column — never with the unmapped-column
error; in particular an input carrying the whole declared schema plus an
extra column `"Extra"` is absorbed without complaint. -/
theorem noe_extra_columns_silently_dropped :
    (∀ cols : List String,
        noeSchemaStep cols = .ok noeSelection ∨
          noeSchemaStep cols = .error "KeyError: columns not in index") ∧
    noeSchemaStep (noeSelection ++ ["Extra"]) = .ok noeSelection := by
  constructor
  · intro cols
    unfold noeSchemaStep selectColumns
    by_cases h : ∀ c ∈ noeSelection, c ∈ cols.filter (fun c => decide (c ∉ housekeepingCols))
    · left
      rw [if_pos h]
      rfl
    · right
      rw [if_neg h]
  · rfl

/-- Claim C4: the claim says a null in the integer-typed `KG-Nummer` column
passes through as null and never causes a failure of the integer
coercion step.  In the code the step ends with `.astype("int")`, and
numpy `int64` cannot represent a missing value, so a column containing a
null raises instead: evaluated at the failing input
`[32144, null]`, the step is an error, not a column with the null
preserved. -/
theorem noe_int_coercion_raises_on_null :
    intCoerceColumn [some 32144, none] =
      .error "ValueError: Cannot convert non-finite values (NA or inf) to integer" := by
  rfl

/-- Claim C9: float cells are normalized by replacing the decimal comma with
a decimal point before numeric coercion and rounded to 6 decimal places:
the input cell `"1,23"` coerces to `1.23`; and any non-null float cell
that still cannot be parsed as a number makes the coercion step raise
(`errors="raise"`), rather than coerce to null. -/
theorem noe_float_comma_normalized :
    floatCoerceColumn [some "1,23"] = .ok [some (123 / 100 : ℚ)] ∧
    ∀ (s : List (Option String)) (v : String), some v ∈ s →
      to_numeric (pyReplace v "," ".") = none →
      floatCoerceColumn s = .error "ValueError: Unable to parse string" := by
  constructor
  · with_unfolding_all rfl
  · intro s v hv hparse
    have hcell : floatCellStep (some v) = none := by
      simp [floatCellStep, hparse]
    have hnot : ¬ ∀ r ∈ s.map floatCellStep, r.isSome := by
      intro hall
      have h2 := hall (floatCellStep (some v)) (List.mem_map_of_mem _ hv)
      rw [hcell] at h2
      exact absurd h2 (by simp)
    unfold floatCoerceColumn
    rw [if_neg hnot]

/-- Witness for C9: the unparsable cell `"abc"` makes the float-coercion
step raise. -/
theorem noe_float_comma_normalized_witness :
    floatCoerceColumn [some "abc"] = .error "ValueError: Unable to parse string" :=
  noe_float_comma_normalized.2 [some "abc"] "abc" (by simp) (by decide)

/-- Claim C2, counterexample: the claim says that two datasets that differ
in row order receive different fingerprints — "in particular, reordering
the rows of a dataset changes its fingerprint".  It does not: the
fingerprint is the wrap-around *sum* of per-row hashes, and a pandas row
reordering (`sort_values`, positional indexing) carries the index label of
each row along with it, so the summed multiset of (label, row) hashes — and
hence the fingerprint — is unchanged.  Concretely, the dataset with
labels `[1, 0]` and rows `[[20], [10]]` is a row reordering of the one
with labels `[0, 1]` and rows `[[10], [20]]` (their zipped label/row
pairs are a permutation of each other and the row lists differ), yet the
two fingerprints are equal. -/
theorem gdfFingerprint_row_reorder_counterexample :
    (([1, 0] : List Nat).zip ([[20], [10]] : List (List Int))).Perm
        (([0, 1] : List Nat).zip ([[10], [20]] : List (List Int))) ∧
    ([[10], [20]] : List (List Int)) ≠ ([[20], [10]] : List (List Int)) ∧
    gdfFingerprint [0, 1] [[10], [20]] = gdfFingerprint [1, 0] [[20], [10]] := by
  refine ⟨by decide, by decide, by decide⟩

/-- Claim C2, amended: two datasets with identical column values in
identical row order (and identical row labels) receive the same
fingerprint; more strongly, the fingerprint is invariant under *every*
permutation of the (row label, row values) pairs, so reordering the rows
of a dataset while its index labels travel with the rows — which is what
the pandas reordering operations do — never changes the fingerprint.
Only a change relative to the stored labels (a cell edit, or a reorder
against a reset positional index) can change it. -/
theorem gdfFingerprint_perm_invariant (idx1 : List Nat) (rows1 : List (List Int))
    (idx2 : List Nat) (rows2 : List (List Int))
    (h : (idx1.zip rows1).Perm (idx2.zip rows2)) :
    gdfFingerprint idx1 rows1 = gdfFingerprint idx2 rows2 := by
  unfold gdfFingerprint hash_pandas_object
  rw [(h.map (fun p => rowHash p.1 p.2)).sum_eq]

/-- Witness for the amended C2: the permutation invariance evaluated at
the concrete reordered pair of datasets. -/
theorem gdfFingerprint_perm_invariant_witness :
    gdfFingerprint [0, 1] [[10], [20]] = gdfFingerprint [1, 0] [[20], [10]] :=
  gdfFingerprint_perm_invariant [0, 1] [[10], [20]] [1, 0] [[20], [10]] (by decide)

/-- Claim C3: `is_data_updated` returns `false` exactly when the hash file
exists and its stored (stripped) fingerprint equals the freshly computed
one, and leaves the file untouched in that case; otherwise it writes the
new fingerprint and returns `true`.  In particular a first call with no
existing hash file returns `true` and creates the file, and an
immediately following call with the same dataset returns `false` (the
stored fingerprint, being the decimal string just written, strips to
itself). -/
theorem is_data_updated_spec (index : List Nat) (rows : List (List Int))
    (st : Option String) :
    ((is_data_updated index rows st).1 = false ↔
        ∃ c, st = some c ∧ calculate_gdf_hash index rows = pyStrip c) ∧
    ((is_data_updated index rows st).1 = false →
        (is_data_updated index rows st).2 = st) ∧
    ((is_data_updated index rows st).1 = true →
        (is_data_updated index rows st).2 = some (calculate_gdf_hash index rows)) ∧
    (st = none →
        is_data_updated index rows st = (true, some (calculate_gdf_hash index rows))) ∧
    (pyStrip (calculate_gdf_hash index rows) = calculate_gdf_hash index rows →
        is_data_updated index rows (is_data_updated index rows none).2 =
          (false, some (calculate_gdf_hash index rows))) := by
  refine ⟨?_, ?_, ?_, ?_, ?_⟩
  · rcases st with _ | c
    · simp [is_data_updated]
    · by_cases h : calculate_gdf_hash index rows = pyStrip c <;>
        simp [is_data_updated, h]
  · rcases st with _ | c
    · simp [is_data_updated]
    · by_cases h : calculate_gdf_hash index rows = pyStrip c <;>
        simp [is_data_updated, h]
  · rcases st with _ | c
    · simp [is_data_updated]
    · by_cases h : calculate_gdf_hash index rows = pyStrip c <;>
        simp [is_data_updated, h]
  · intro h
    subst h
    rfl
  · intro htrim
    simp [is_data_updated, htrim]

/-- Witness for C3: on a concrete one-cell dataset, the first call with
no hash file creates the file and the second call reports no change. -/
theorem is_data_updated_spec_witness :
    is_data_updated [0] [[5]] (is_data_updated [0] [[5]] none).2 =
      (false, some (calculate_gdf_hash [0] [[5]])) :=
  (is_data_updated_spec [0] [[5]] none).2.2.2.2 (by decide)

/-! ### Helper lemmas for the obstacle parser -/

lemma collectWtgs_nil_of_no_valid (structs : List VerticalStructure)
    (h : ∀ s ∈ structs, s.stype ∉ valid_types) : collectWtgs structs = [] := by
  induction structs with
  | nil => rfl
  | cons s rest ih =>
      have hs : s.stype ∉ valid_types := h s (List.mem_cons_self s rest)
      have hrest : ∀ x ∈ rest, x.stype ∉ valid_types :=
        fun x hx => h x (List.mem_cons_of_mem s hx)
      simp only [collectWtgs, List.foldr_cons]
      rw [if_neg hs]
      exact ih hrest

lemma mem_collectWtgs {w : WtgRaw} {structs : List VerticalStructure}
    (h : w ∈ collectWtgs structs) :
    ∃ s ∈ structs, s.stype ∈ valid_types ∧ ∃ p ∈ s.parts, w = mkWtg s p := by
  induction structs with
  | nil => cases h
  | cons s rest ih =>
      simp only [collectWtgs, List.foldr_cons] at h
      by_cases hs : s.stype ∈ valid_types
      · rw [if_pos hs] at h
        rcases List.mem_append.mp h with h | h
        · obtain ⟨p, hp, hw⟩ := List.mem_map.mp h
          exact ⟨s, List.mem_cons_self s rest, hs, p, hp, hw.symm⟩
        · obtain ⟨s', hs', hvt, p, hp, hw⟩ := ih h
          exact ⟨s', List.mem_cons_of_mem s hs', hvt, p, hp, hw⟩
      · rw [if_neg hs] at h
        obtain ⟨s', hs', hvt, p, hp, hw⟩ := ih h
        exact ⟨s', List.mem_cons_of_mem s hs', hvt, p, hp, hw⟩

lemma finishWtg_uid (w : WtgRaw) (u : Int) (h : 2 ≤ w.geometry.length) :
    ∃ r, finishWtg w u = some r ∧ r.UID = u := by
  rcases hg : w.geometry with _ | ⟨t0, tl⟩
  · rw [hg] at h
    exact absurd h (by simp)
  · rcases tl with _ | ⟨t1, rest⟩
    · rw [hg] at h
      exact absurd h (by simp)
    · exact ⟨{ Name := w.Name, WPID := w.WPID, WindFarm := w.WindFarm, wtype := w.wtype,
               Status := statusMap w.Status, geometry := (t1, t0), Longitude := t1,
               Latitude := t0, UID := u }, by unfold finishWtg; rw [hg]; rfl, rfl⟩

lemma filterMap_uid_eq (wtgs : List WtgRaw)
    (h1 : ∀ w ∈ wtgs, (deriveUID w.Name).isSome)
    (h2 : ∀ w ∈ wtgs, 2 ≤ w.geometry.length) :
    (wtgs.filterMap (fun w => (deriveUID w.Name).bind (finishWtg w))).map ObstacleRecord.UID
      = wtgs.filterMap (fun w => deriveUID w.Name) := by
  induction wtgs with
  | nil => rfl
  | cons w rest ih =>
      obtain ⟨u, hu⟩ := Option.isSome_iff_exists.mp (h1 w (List.mem_cons_self w rest))
      obtain ⟨r, hr, hru⟩ := finishWtg_uid w u (h2 w (List.mem_cons_self w rest))
      have ihr := ih (fun x hx => h1 x (List.mem_cons_of_mem w hx))
        (fun x hx => h2 x (List.mem_cons_of_mem w hx))
      simp only [List.filterMap_cons, hu, Option.some_bind, hr, List.map_cons, hru]
      rw [ihr]

/-! ### Theorems about the obstacle parser -/

/-- Claim C5: every record set the obstacle parser returns has pairwise
distinct `UID`s; and when the UID derivation succeeds everywhere but two
parts derive the same `uid`, the parser fails with the fatal
data-integrity assertion instead of returning a dataset. -/
theorem parse_icao_uid_unique (structs : List VerticalStructure) :
    (∀ ds, parse_icao structs = .ok ds →
        (ds.records.map ObstacleRecord.UID).Nodup) ∧
    ((∀ w ∈ collectWtgs structs, (deriveUID w.Name).isSome) →
      (∀ w ∈ collectWtgs structs, 2 ≤ w.geometry.length) →
      ¬ ((collectWtgs structs).filterMap (fun w => deriveUID w.Name)).Nodup →
      parse_icao structs = .error "AssertionError: duplicated UID") := by
  constructor
  · intro ds hds
    unfold parse_icao at hds
    split at hds
    · simp at hds
    · split at hds
      · split at hds
        · split at hds
          · rename_i hnodup
            cases hds
            exact hnodup
          · simp at hds
        · simp at hds
      · simp at hds
  · intro h1 h2 hdup
    have hne : ¬ collectWtgs structs = [] := by
      intro h0
      rw [h0] at hdup
      exact hdup (by simp)
    unfold parse_icao
    rw [if_neg hne, if_pos h1, if_pos h2, if_neg]
    rw [filterMap_uid_eq (collectWtgs structs) h1 h2]
    exact hdup

/-- A kept structure for the witnesses: one windmill structure with two
parts whose names derive the distinct uids 1 and 2. -/
def demoWindmillStruct : VerticalStructure :=
  { stype := "WINDMILL", status := "COMPLETED", name := "WP1", note := "Windpark Demo",
    parts := [{ gmlId := "OBST_1", pos := "47.5 16.2", ptype := "WINDMILL" },
              { gmlId := "OBST_2", pos := "47.6 16.3", ptype := "WINDMILL" }] }

/-- The dataset the parser produces on `[demoWindmillStruct]`. -/
def demoOkDataset : IcaoDataset :=
  (parse_icao [demoWindmillStruct]).toOption.getD { records := [], crsEpsg := 0 }

/-- A structure whose two parts derive the same uid 7. -/
def demoDupStruct : VerticalStructure :=
  { stype := "WINDMILL", status := "COMPLETED", name := "WP2", note := "WP Dup",
    parts := [{ gmlId := "OBST_7", pos := "47.0 16.0", ptype := "WINDMILL" },
              { gmlId := "WKA_7", pos := "47.1 16.1", ptype := "WINDMILL" }] }

/-- Witness for C5: the uids of the demo dataset are distinct, and the
fixture with two parts deriving uid 7 fails the integrity assertion. -/
theorem parse_icao_uid_unique_witness :
    (demoOkDataset.records.map ObstacleRecord.UID).Nodup ∧
      parse_icao [demoDupStruct] = .error "AssertionError: duplicated UID" :=
  ⟨(parse_icao_uid_unique [demoWindmillStruct]).1 demoOkDataset (by rfl),
   (parse_icao_uid_unique [demoDupStruct]).2 (by decide) (by decide) (by decide)⟩

/-- Claim C8: every record the obstacle parser emits interprets its raw
2-token position string in "lat lon" order: the record comes from a part
whose raw position splits so that token 0 is the `Latitude` of the record and
token 1 its `Longitude`; the explicit `Longitude`/`Latitude` fields equal
the x and y coordinates of the geometry point; and the returned dataset
carries EPSG:4326. -/
theorem parse_icao_position_latlon (structs : List VerticalStructure)
    (ds : IcaoDataset) (hds : parse_icao structs = .ok ds) :
    ds.crsEpsg = 4326 ∧
    ∀ r ∈ ds.records,
      r.Longitude = r.geometry.1 ∧ r.Latitude = r.geometry.2 ∧
      ∃ s ∈ structs, ∃ p ∈ s.parts, r.Name = p.gmlId ∧
        (pySplitChar ' ' p.pos).get? 0 = some r.Latitude ∧
        (pySplitChar ' ' p.pos).get? 1 = some r.Longitude := by
  unfold parse_icao at hds
  split at hds
  · simp at hds
  · split at hds
    · split at hds
      · split at hds
        · cases hds
          refine ⟨rfl, ?_⟩
          intro r hr
          obtain ⟨w, hw, hfw⟩ := List.mem_filterMap.mp hr
          rcases hu : deriveUID w.Name with _ | u
          · rw [hu] at hfw
            simp at hfw
          · rw [hu] at hfw
            simp only [Option.some_bind] at hfw
            obtain ⟨s, hs, hvt, p, hp, hwp⟩ := mem_collectWtgs hw
            subst hwp
            unfold finishWtg at hfw
            rcases h0 : (mkWtg s p).geometry.get? 0 with _ | t0
            · rw [h0] at hfw
              simp at hfw
            · rcases h1 : (mkWtg s p).geometry.get? 1 with _ | t1
              · rw [h0, h1] at hfw
                simp at hfw
              · rw [h0, h1] at hfw
                simp only [Option.some.injEq] at hfw
                subst hfw
                exact ⟨rfl, rfl, s, hs, p, hp, rfl, h0, h1⟩
        · simp at hds
      · simp at hds
    · simp at hds

/-- Witness for C8: the demo parse succeeds and its dataset carries
EPSG:4326. -/
theorem parse_icao_position_latlon_witness : demoOkDataset.crsEpsg = 4326 :=
  (parse_icao_position_latlon [demoWindmillStruct] demoOkDataset (by rfl)).1

/-- Claim C10: when no structure in the input has type `WINDMILL_FARMS` or
`WINDMILL`, the collection loop emits zero records, and the parser
raises (the `df["Name"]` access on the column-less empty frame) instead
of returning an empty dataset. -/
theorem parse_icao_no_windmill_raises (structs : List VerticalStructure)
    (h : ∀ s ∈ structs, s.stype ∉ valid_types) :
    parse_icao structs = .error "KeyError: Name" := by
  unfold parse_icao
  rw [collectWtgs_nil_of_no_valid structs h]
  rfl

/-- A structure of a non-windmill type. -/
def demoOtherStruct : VerticalStructure :=
  { stype := "OTHER", status := "COMPLETED", name := "LOAV", note := "Antennenmast",
    parts := [{ gmlId := "OBST_999", pos := "47.0 16.0", ptype := "OTHER" }] }

/-- Witness for C10: a fixture with only an `OTHER`-typed structure makes
the parser raise. -/
theorem parse_icao_no_windmill_raises_witness :
    parse_icao [demoOtherStruct] = .error "KeyError: Name" :=
  parse_icao_no_windmill_raises [demoOtherStruct] (by decide)

/-- Claim C7: whenever the network fetch fails, the downloaded bytes are
not a readable zip archive, or the archive does not contain exactly one
`.xml` member, the fetch-and-cache operation fails (the retrieval error
is printed and swallowed, leaving `ac_source = None`, and the subsequent
`parse_icao(None)` raises) and nothing is written to the cache path. -/
theorem get_austro_control_failure_no_write (dl : Download)
    (xmlOf : String → List VerticalStructure)
    (h : dl = .failure ∨ dl = .malformedZip ∨
      ∃ entries, dl = .archive entries ∧
        (entries.filter (fun e => pyEndsWith e.1 ".xml")).length ≠ 1) :
    (get_austro_control_data dl xmlOf).2 = none ∧
      ∃ e, (get_austro_control_data dl xmlOf).1 = .error e := by
  rcases h with h | h | ⟨entries, h, hlen⟩
  · subst h
    exact ⟨rfl, _, rfl⟩
  · subst h
    exact ⟨rfl, _, rfl⟩
  · subst h
    have heq : fetchObstacleArchive (.archive entries)
        = match entries.filter (fun e => pyEndsWith e.1 ".xml") with
          | [e] => (some e.2, some e.2)
          | _ => (none, none) := rfl
    have hfa : fetchObstacleArchive (.archive entries) = (none, none) := by
      rw [heq]
      rcases hf : entries.filter (fun e => pyEndsWith e.1 ".xml") with _ | ⟨a, _ | ⟨b, tl2⟩⟩
      · rw [hf]
      · exact absurd (by simp [hf]) hlen
      · rw [hf]
    unfold get_austro_control_data
    rw [hfa]
    exact ⟨rfl, _, rfl⟩

/-- Witness for C7: an archive with two `.xml` members yields an error
and no cache write. -/
theorem get_austro_control_failure_no_write_witness :
    (get_austro_control_data (.archive [("a.xml", "x"), ("b.xml", "y")])
        (fun _ => [])).2 = none ∧
      ∃ e, (get_austro_control_data (.archive [("a.xml", "x"), ("b.xml", "y")])
        (fun _ => [])).1 = .error e :=
  get_austro_control_failure_no_write _ _ (Or.inr (Or.inr ⟨_, rfl, by decide⟩))

/-! ### Helper lemmas for the duplicate-key removal -/

lemma dropDupFirst_sublist (rows : List NoeRow)
    (seen : List (String × String × ℚ × ℚ)) :
    (dropDupFirst rows seen).Sublist rows := by
  induction rows generalizing seen with
  | nil => simp [dropDupFirst]
  | cons r rest ih =>
      unfold dropDupFirst
      by_cases h : keyOf r ∈ seen
      · rw [if_pos h]
        exact (ih seen).trans (List.sublist_cons_self r rest)
      · rw [if_neg h]
        exact List.Sublist.cons₂ r (ih _)

lemma dropDupFirst_nodup (rows : List NoeRow)
    (seen : List (String × String × ℚ × ℚ)) :
    ((dropDupFirst rows seen).map keyOf).Nodup ∧
      ∀ r ∈ dropDupFirst rows seen, keyOf r ∉ seen := by
  induction rows generalizing seen with
  | nil => exact ⟨List.nodup_nil, by simp [dropDupFirst]⟩
  | cons r rest ih =>
      unfold dropDupFirst
      by_cases h : keyOf r ∈ seen
      · rw [if_pos h]
        exact ih seen
      · rw [if_neg h]
        obtain ⟨hnd, hdisj⟩ := ih (keyOf r :: seen)
        refine ⟨?_, ?_⟩
        · simp only [List.map_cons, List.nodup_cons]
          refine ⟨?_, hnd⟩
          intro hmem
          obtain ⟨x, hx, hkx⟩ := List.mem_map.mp hmem
          exact hdisj x hx (hkx ▸ List.mem_cons_self _ _)
        · intro x hx
          rcases List.mem_cons.mp hx with hx | hx
          · subst hx
            exact h
          · intro hseen
            exact hdisj x hx (List.mem_cons_of_mem _ hseen)

lemma dropDupFirst_eq_self (rows : List NoeRow)
    (seen : List (String × String × ℚ × ℚ))
    (hnd : (rows.map keyOf).Nodup) (hdisj : ∀ r ∈ rows, keyOf r ∉ seen) :
    dropDupFirst rows seen = rows := by
  induction rows generalizing seen with
  | nil => rfl
  | cons r rest ih =>
      rw [List.map_cons, List.nodup_cons] at hnd
      unfold dropDupFirst
      rw [if_neg (hdisj r (List.mem_cons_self _ _))]
      congr 1
      refine ih _ hnd.2 ?_
      intro x hx hmem
      rcases List.mem_cons.mp hmem with hk | hk
      · exact hnd.1 (hk ▸ List.mem_map_of_mem keyOf hx)
      · exact hdisj x (List.mem_cons_of_mem _ hx) hk

lemma mem_dropDupFirst_of_first (pre post : List NoeRow) (r : NoeRow)
    (seen : List (String × String × ℚ × ℚ))
    (hpre : keyOf r ∉ pre.map keyOf) (hseen : keyOf r ∉ seen) :
    r ∈ dropDupFirst (pre ++ r :: post) seen := by
  induction pre generalizing seen with
  | nil =>
      rw [List.nil_append]
      unfold dropDupFirst
      rw [if_neg hseen]
      exact List.mem_cons_self _ _
  | cons p pre' ih =>
      have hne : keyOf r ≠ keyOf p := by
        intro hEq
        exact hpre (by simp [hEq])
      have hpre' : keyOf r ∉ pre'.map keyOf := by
        intro hx
        exact hpre (by simp [hx])
      rw [List.cons_append]
      unfold dropDupFirst
      by_cases hp : keyOf p ∈ seen
      · rw [if_pos hp]
        exact ih seen hpre' hseen
      · rw [if_neg hp]
        refine List.mem_cons_of_mem _ (ih (keyOf p :: seen) hpre' ?_)
        intro hx
        rcases List.mem_cons.mp hx with hx | hx
        · exact hne hx
        · exact hseen hx

lemma nodup_of_countP_le_one {α : Type _} [DecidableEq α] {l : List α}
    (h : ∀ k, l.countP (fun x => decide (x = k)) ≤ 1) : l.Nodup := by
  induction l with
  | nil => exact List.nodup_nil
  | cons a l ih =>
      rw [List.nodup_cons]
      constructor
      · intro hmem
        have ha := h a
        rw [List.countP_cons] at ha
        rw [if_pos (by simp)] at ha
        have h1 : 0 < l.countP (fun x => decide (x = a)) := by
          rw [List.countP_pos_iff]
          exact ⟨a, hmem, by simp⟩
        omega
      · apply ih
        intro k
        have hk := h k
        rw [List.countP_cons] at hk
        omega

lemma key_seen_or_duplicated_of_dropped (rows : List NoeRow)
    (seen : List (String × String × ℚ × ℚ)) (r : NoeRow)
    (hr : r ∈ rows) (hnot : r ∉ dropDupFirst rows seen) :
    keyOf r ∈ seen ∨ 2 ≤ keyCount rows (keyOf r) := by
  induction rows generalizing seen with
  | nil => cases hr
  | cons w rest ih =>
      have hcount : keyCount (w :: rest) (keyOf r)
          = keyCount rest (keyOf r)
            + if keyOf w = keyOf r then 1 else 0 := by
        unfold keyCount
        rw [List.map_cons, List.countP_cons]
        simp
      unfold dropDupFirst at hnot
      by_cases hw : keyOf w ∈ seen
      · rw [if_pos hw] at hnot
        rcases List.mem_cons.mp hr with hr' | hr'
        · subst hr'
          exact Or.inl hw
        · rcases ih seen hr' hnot with h | h
          · exact Or.inl h
          · refine Or.inr ?_
            rw [hcount]
            omega
      · rw [if_neg hw] at hnot
        have hrw : r ≠ w := fun hEq => hnot (hEq ▸ List.mem_cons_self _ _)
        have hrest : r ∈ rest := (List.mem_cons.mp hr).resolve_left hrw
        have hnot' : r ∉ dropDupFirst rest (keyOf w :: seen) :=
          fun hx => hnot (List.mem_cons_of_mem _ hx)
        rcases ih (keyOf w :: seen) hrest hnot' with h | h
        · rcases List.mem_cons.mp h with hk | hk
          · refine Or.inr ?_
            have h1 : 0 < keyCount rest (keyOf r) := by
              unfold keyCount
              rw [List.countP_pos_iff]
              exact ⟨keyOf r, List.mem_map_of_mem keyOf hrest, by simp⟩
            rw [hcount, if_pos hk.symm]
            omega
          · exact Or.inl hk
        · refine Or.inr ?_
          rw [hcount]
          omega

/-- Claim C6: the duplicate-key handling of the normalizer: the surviving
rows have pairwise distinct identity keys; the output is a subsequence of
the input equal to the keep-first filter; every row whose key has no
earlier occurrence survives (so the *first* occurrence of each key is
kept); and the key of every dropped row appears in the surfaced
duplicated-key report. -/
theorem noeDedupe_spec (rows : List NoeRow) :
    (((noeDedupe rows).1.map keyOf).Nodup) ∧
    ((noeDedupe rows).1.Sublist rows) ∧
    ((noeDedupe rows).1 = dropDupFirst rows []) ∧
    (∀ pre r post, rows = pre ++ r :: post → keyOf r ∉ pre.map keyOf →
        r ∈ (noeDedupe rows).1) ∧
    (∀ r ∈ rows, r ∉ (noeDedupe rows).1 → keyOf r ∈ (noeDedupe rows).2) := by
  by_cases hd : duplicatedKeys rows = []
  · have hnd : (rows.map keyOf).Nodup := by
      apply nodup_of_countP_le_one
      intro k
      by_contra hk
      push_neg at hk
      by_cases hmem : k ∈ rows.map keyOf
      · have hkdup : k ∈ duplicatedKeys rows := by
          unfold duplicatedKeys
          rw [List.mem_filter]
          exact ⟨hmem, by simpa [keyCount] using hk⟩
        rw [hd] at hkdup
        cases hkdup
      · have h0 : (rows.map keyOf).countP (fun x => decide (x = k)) = 0 := by
          rw [List.countP_eq_zero]
          intro a ha hak
          have hak' : a = k := by simpa using hak
          subst hak'
          exact hmem ha
        omega
    have heq : noeDedupe rows = (rows, []) := by
      unfold noeDedupe
      rw [if_pos hd]
    rw [heq]
    refine ⟨hnd, List.Sublist.refl rows, ?_, ?_, ?_⟩
    · exact (dropDupFirst_eq_self rows [] hnd (by simp)).symm
    · intro pre r post hrows _
      subst hrows
      exact List.mem_append.mpr (Or.inr (List.mem_cons_self _ _))
    · intro r hr hnot
      exact absurd hr hnot
  · have heq : noeDedupe rows = (dropDupFirst rows [], duplicatedKeys rows) := by
      unfold noeDedupe
      rw [if_neg hd]
    rw [heq]
    refine ⟨(dropDupFirst_nodup rows []).1, dropDupFirst_sublist rows [], rfl, ?_, ?_⟩
    · intro pre r post hrows hpre
      subst hrows
      exact mem_dropDupFirst_of_first pre post r [] hpre (by simp)
    · intro r hr hnot
      rcases key_seen_or_duplicated_of_dropped rows [] r hr hnot with h | h
      · cases h
      · unfold duplicatedKeys
        rw [List.mem_filter]
        exact ⟨List.mem_map_of_mem keyOf hr, by simpa using h⟩

/-- Two demo rows sharing the identity key, plus a distinct third. -/
def demoRowA : NoeRow :=
  { vorhaben := "WP Nord", nameWKA := "WKA 1", laenge := 16, breite := 48,
    payload := "first" }

/-- A later duplicate of the key of `demoRowA` (different payload). -/
def demoRowB : NoeRow :=
  { vorhaben := "WP Nord", nameWKA := "WKA 1", laenge := 16, breite := 48,
    payload := "second" }

/-- A row with a distinct key. -/
def demoRowC : NoeRow :=
  { vorhaben := "WP Sued", nameWKA := "WKA 2", laenge := 15, breite := 47,
    payload := "third" }

/-- Witness for C6: on the concrete input with a duplicated key, the
key of the dropped later occurrence is surfaced in the report. -/
theorem noeDedupe_spec_witness :
    keyOf demoRowB ∈ (noeDedupe [demoRowA, demoRowB, demoRowC]).2 :=
  (noeDedupe_spec [demoRowA, demoRowB, demoRowC]).2.2.2.2 demoRowB
    (by decide) (by decide)

end EwsGisAssets
